import Mathlib

/-!
Shallow embedding of the client-side state machine of `src/frontend/pages/index.tsx`
(the `Home` page controller of the RAG chat frontend), together with the data
types it imports from the presentational components
(`ChatWindow.tsx`, `FileUploader.tsx`, `ThreadSidebar.tsx`, `SourcesPanel.tsx`).

Modelling conventions:
* React `useState` fields become fields of `HomeState`.  Purely view-local UI
  state (collapse flags, mobile tabs, preview modal, action-loading spinner)
  is elided: no claim mentions it and no handler's claimed behaviour reads it.
* `localStorage` becomes three explicit fields of `HomeState`
  (`storeThreads`, `storeActiveThread`, `storeThreadData`); the per-thread
  entries keyed by `"rag-chat-thread-data-" ++ id` become an association list
  keyed by the thread id (the fixed prefix makes the key map injective in ids).
* The three `useEffect` save hooks run after each state commit; `applyEffects`
  applies them after every user-event handler.  Re-running an effect whose
  dependencies did not change writes back the identical value, so applying all
  three unconditionally is equivalent.
* `Date.now()` / `new Date().toISOString()` are modelled by an explicit `now`
  string parameter (one event = one timestamp).
* Network I/O is modelled by a `NetResult` oracle parameter; a handler returns
  the list of requests it issued so "zero network calls" / "no retry" are
  statable.  The cosmetic 300 ms typing delay and the 4 s toast timeout are
  timing-only and elided; toasts are modelled as the append-only list of
  notices raised (the module-global `_toastId` counter is elided with them).
* Inside one event-handler call chain, reads of a state variable see the
  render-time value while `setX(prev => ...)` updates compose on the live
  state.  This matters once: `handleSend` appends the user bubble with
  `setMessages(prev => ...)` and then calls `queryBackend`, whose closure
  still reads the pre-append `messages`; `queryBackend` therefore takes the
  render-time message list as a separate `renderMessages` argument.
-/

namespace RagChat

/-- Message roles, from `ChatWindow.tsx` (`"user" | "bot" | "system"`). -/
inductive Role where
  | user
  | bot
  | system
deriving DecidableEq, Repr

/-- A citation attached to a bot message: `{file: string, page: number}`
(`ChatWindow.tsx`, `export interface Source` there). -/
structure Citation where
  file : String
  page : Nat
deriving DecidableEq, Repr

/-- `ChatMessage` from `ChatWindow.tsx`; `sources` is the optional citation list. -/
structure ChatMessage where
  id : String
  role : Role
  text : String
  sources : Option (List Citation) := none
deriving DecidableEq, Repr

/-- `Thread` from `ThreadSidebar.tsx`. -/
structure Thread where
  id : String
  title : String
  icon : String
  createdAt : String
  updatedAt : String
deriving DecidableEq, Repr

/-- `Source` from `SourcesPanel.tsx` (an uploaded document; `preview_url` is
view-only and elided). -/
structure Source where
  file_id : String
  filename : String
  pages : Nat
  chunks_indexed : Nat
  type : String
  uploadedAt : String
  enabled : Bool
deriving DecidableEq, Repr

/-- `UploadResult` from `FileUploader.tsx`. -/
structure UploadResult where
  file_id : String
  filename : String
  pages : Nat
  chunks_indexed : Nat
  type : String
  recommended_actions : List String := []
deriving DecidableEq, Repr

/-- Toast kinds from the `Toast` interface in `index.tsx`. -/
inductive ToastType where
  | error
  | success
  | info
deriving DecidableEq, Repr

/-- A raised notice (`Toast` in `index.tsx`, minus the elided numeric id). -/
structure Toast where
  message : String
  type : ToastType
deriving DecidableEq, Repr

/-- `ThreadData` from `index.tsx`: the per-thread persisted snapshot. -/
structure ThreadData where
  messages : List ChatMessage
  sources : List Source
deriving DecidableEq, Repr

/-- The two seed messages (`SEED_MESSAGES` in `index.tsx`). -/
def SEED_MESSAGES : List ChatMessage :=
  [ { id := "seed-1", role := .bot,
      text := "👋 Welcome! I can chat with you about anything. Upload a document on the right to unlock RAG mode." },
    { id := "seed-2", role := .bot,
      text := "You can ask me anything about the document, or try the quick actions (\"Summarize\", \"Generate Quiz\") once it's uploaded." } ]

/-- The page-level state of `Home` in `index.tsx`, with `localStorage`
made explicit (`storeThreads` / `storeActiveThread` / `storeThreadData`
are the entries under `STORAGE_THREADS_KEY`, `STORAGE_ACTIVE_THREAD_KEY`
and the `STORAGE_THREAD_DATA_PREFIX`-keyed family). -/
structure HomeState where
  threads : List Thread
  activeThreadId : Option String
  messages : List ChatMessage
  isTyping : Bool
  sources : List Source
  uploadResult : Option UploadResult
  useRag : Bool
  toasts : List Toast
  bannerDismissed : Bool
  storeThreads : Option (List Thread)
  storeActiveThread : Option String
  storeThreadData : List (String × ThreadData)
deriving DecidableEq, Repr

/-- The initial render state of `Home` (before the mount/load effect). -/
def initialState : HomeState :=
  { threads := [], activeThreadId := none, messages := SEED_MESSAGES,
    isTyping := false, sources := [], uploadResult := none, useRag := false,
    toasts := [], bannerDismissed := false,
    storeThreads := none, storeActiveThread := none, storeThreadData := [] }

/-- `localStorage.setItem` on the per-thread data family. -/
def storeSet (l : List (String × ThreadData)) (k : String) (v : ThreadData) :
    List (String × ThreadData) :=
  (k, v) :: l.filter (fun p => p.1 != k)

/-- `localStorage.removeItem` on the per-thread data family. -/
def storeRemove (l : List (String × ThreadData)) (k : String) :
    List (String × ThreadData) :=
  l.filter (fun p => p.1 != k)

/-- `localStorage.getItem` on the per-thread data family. -/
def storeGet (l : List (String × ThreadData)) (k : String) : Option ThreadData :=
  (l.find? (fun p => p.1 == k)).map (·.2)

/-- Save effect for the thread list (`index.tsx` lines 148-152): writes only
when the in-memory list is non-empty. -/
def saveThreadsEffect (s : HomeState) : HomeState :=
  if s.threads.isEmpty then s else { s with storeThreads := some s.threads }

/-- Save effect for the active thread id (`index.tsx` lines 155-159). -/
def saveActiveThreadEffect (s : HomeState) : HomeState :=
  match s.activeThreadId with
  | some a => { s with storeActiveThread := some a }
  | none => s

/-- Save effect for the current thread's snapshot (`index.tsx` lines 162-167):
writes `{messages, sources}` under the active thread id when there is an
active thread and the message list is non-empty. -/
def saveThreadDataEffect (s : HomeState) : HomeState :=
  match s.activeThreadId with
  | some a =>
      if s.messages.isEmpty then s
      else { s with storeThreadData := storeSet s.storeThreadData a ⟨s.messages, s.sources⟩ }
  | none => s

/-- All three save effects, as they run after a state commit. -/
def applyEffects (s : HomeState) : HomeState :=
  saveThreadDataEffect (saveActiveThreadEffect (saveThreadsEffect s))

/-- `showToast` (`index.tsx` lines 171-178), minus the elided timeout removal. -/
def showToast (s : HomeState) (message : String) (type : ToastType) : HomeState :=
  { s with toasts := s.toasts ++ [{ message := message, type := type }] }

/-- `addBotMessage` (`index.tsx` lines 281-294). -/
def addBotMessage (s : HomeState) (now text : String)
    (cites : Option (List Citation)) : HomeState :=
  { s with messages :=
      s.messages ++ [{ id := "bot-" ++ now, role := .bot, text := text, sources := cites }] }

/-- `handleCreateThread` (`index.tsx` lines 182-194). -/
def handleCreateThread (s : HomeState) (now : String) : HomeState :=
  let newThread : Thread :=
    { id := "thread-" ++ now, title := "New Chat", icon := "💬",
      createdAt := now, updatedAt := now }
  { s with threads := newThread :: s.threads,
           activeThreadId := some newThread.id,
           messages := SEED_MESSAGES }

/-- `handleSelectThread` (`index.tsx` lines 196-214): saves the current
thread's snapshot, switches the active id, then loads the target's snapshot
(falling back to the seed messages); sources are kept as-is (shared model). -/
def handleSelectThread (s : HomeState) (threadId : String) : HomeState :=
  let s1 :=
    match s.activeThreadId with
    | some a => { s with storeThreadData := storeSet s.storeThreadData a ⟨s.messages, s.sources⟩ }
    | none => s
  let s2 := { s1 with activeThreadId := some threadId }
  match storeGet s2.storeThreadData threadId with
  | some data =>
      { s2 with messages := if data.messages.isEmpty then SEED_MESSAGES else data.messages }
  | none => { s2 with messages := SEED_MESSAGES }

/-- `handleDeleteThread` (`index.tsx` lines 226-240).  The nested
`handleSelectThread` call still sees the pre-delete `activeThreadId` closure
value, which is exactly the state threaded into it here. -/
def handleDeleteThread (s : HomeState) (threadId : String) : HomeState :=
  let s1 := { s with threads := s.threads.filter (fun t => t.id != threadId),
                     storeThreadData := storeRemove s.storeThreadData threadId }
  if s.activeThreadId = some threadId then
    match s.threads.filter (fun t => t.id != threadId) with
    | r :: _ => handleSelectThread s1 r.id
    | [] => { s1 with activeThreadId := none, messages := SEED_MESSAGES }
  else s1

/-- `handleToggleSource` (`index.tsx` lines 254-260). -/
def handleToggleSource (s : HomeState) (fileId : String) : HomeState :=
  { s with sources := s.sources.map fun src =>
              if src.file_id == fileId then { src with enabled := !src.enabled } else src }

/-- `handleToggleAllSources` (`index.tsx` lines 262-265). -/
def handleToggleAllSources (s : HomeState) (enabled : Bool) : HomeState :=
  { s with sources := s.sources.map (fun src => { src with enabled := enabled }),
           useRag := enabled && decide (0 < s.sources.length) }

/-- `handleDeleteSource` (`index.tsx` lines 267-273). -/
def handleDeleteSource (s : HomeState) (fileId : String) : HomeState :=
  let s1 := { s with sources := s.sources.filter (fun src => src.file_id != fileId) }
  match s.uploadResult with
  | some u =>
      if u.file_id == fileId then { s1 with uploadResult := none, useRag := false } else s1
  | none => s1

/-- JS `.slice(-10)`: the last `n` elements of a list. -/
def takeLast (n : Nat) (l : List α) : List α := l.drop (l.length - n)

/-- One entry of the `history` array sent to `/api/query`: `{role, text}`. -/
structure HistoryEntry where
  role : Role
  text : String
deriving DecidableEq, Repr

/-- The JSON body of a `POST /api/query` request (`index.tsx` lines 320-327).
`qtype` embeds the `type` field. -/
structure QueryRequest where
  file_id : Option String
  filename : Option String
  query : String
  qtype : String
  use_rag : Bool
  history : List HistoryEntry
deriving DecidableEq, Repr

/-- Outcome oracle for one `fetch` of `/api/query`: `ok` is a 2xx response
with parsed JSON `{answer, sources?}`; `fail` is any non-2xx status or
transport error (both reach the same `catch`). -/
inductive NetResult where
  | ok (answer : String) (citations : Option (List Citation))
  | fail
deriving DecidableEq, Repr

/-- JS `x || null` on an optional string field of the upload result:
a missing object or an empty (falsy) string both yield `null`. -/
def jsStringOrNull (o : Option UploadResult) (f : UploadResult → String) : Option String :=
  match o with
  | none => none
  | some u => if f u == "" then none else some (f u)

/-- `queryBackend` (`index.tsx` lines 298-345).  `renderMessages` is the
`messages` value captured by the callback's closure (used only to build the
history); state updates act on the live state `s`.  Returns the new state and
the list of requests issued (empty on local rejection, a single request
otherwise — the code never retries). -/
def queryBackend (renderMessages : List ChatMessage) (s : HomeState)
    (query qtype : String) (forceRag : Option Bool) (now : String)
    (net : NetResult) : HomeState × List QueryRequest :=
  let ragOn := forceRag.getD s.useRag
  if ragOn && s.uploadResult.isNone then
    (showToast s "Upload a document first to use RAG." .info, [])
  else
    let s1 := { s with isTyping := true }
    let historyMessages :=
      (takeLast 10 (renderMessages.filter (fun m => m.role == .user || m.role == .bot))).map
        (fun m => ({ role := m.role, text := m.text } : HistoryEntry))
    let req : QueryRequest :=
      { file_id := jsStringOrNull s.uploadResult (·.file_id),
        filename := jsStringOrNull s.uploadResult (·.filename),
        query := query, qtype := qtype, use_rag := ragOn,
        history := historyMessages }
    match net with
    | .ok answer cites =>
        (addBotMessage { s1 with isTyping := false } now answer cites, [req])
    | .fail =>
        (showToast { s1 with isTyping := false } "Server unavailable — try again" .error, [req])

/-- `handleSend` (`index.tsx` lines 349-359): appends the user bubble via a
functional update, then calls `queryBackend`, whose closure still reads the
pre-append message list. -/
def handleSend (s : HomeState) (text now : String) (net : NetResult) :
    HomeState × List QueryRequest :=
  let s1 := { s with messages :=
      s.messages ++ [{ id := "user-" ++ now, role := .user, text := text }] }
  queryBackend s.messages s1 text "freeform" none now net

/-- The regex replace `filename.replace(/\.[^\/.]+$/, "")`: drop a trailing
dot-extension (a final `.` followed by one or more characters none of which
is `/` or `.`); otherwise leave the name unchanged. -/
def dropFileExt (cs : List Char) : List Char :=
  let rev := cs.reverse
  let ext := rev.takeWhile (fun c => c != '.' && c != '/')
  match rev.drop ext.length with
  | '.' :: rest => if ext.isEmpty then cs else rest.reverse
  | _ => cs

/-- `handleUploadComplete` (`index.tsx` lines 363-405).  (`.slice(0, 30)`
counts UTF-16 units in JS; modelled as the first 30 characters.) -/
def handleUploadComplete (s : HomeState) (r : UploadResult) (now : String) : HomeState :=
  let s1 := { s with uploadResult := some r, useRag := true, bannerDismissed := false }
  let s2 :=
    if s1.sources.any (fun src => src.file_id == r.file_id) then s1
    else { s1 with sources := s1.sources ++
        [{ file_id := r.file_id, filename := r.filename, pages := r.pages,
           chunks_indexed := r.chunks_indexed, type := r.type,
           uploadedAt := now, enabled := true }] }
  let s3 :=
    if s.threads.isEmpty then
      let newThread : Thread :=
        { id := "thread-" ++ now,
          title := String.mk ((dropFileExt r.filename.data).take 30),
          icon := if r.type == "pdf" then "📄" else "🖼️",
          createdAt := now, updatedAt := now }
      { s2 with threads := [newThread], activeThreadId := some newThread.id }
    else s2
  showToast s3
    ("\"" ++ r.filename ++ "\" uploaded — " ++ toString r.pages ++ " pages, "
      ++ toString r.chunks_indexed ++ " chunks indexed.") .success

/-- The mount/load effect (`index.tsx` lines 113-145): restore the thread
list, re-select the stored active thread if still present (else the first
thread), and load that thread's snapshot. -/
def loadThreadOnMount (s : HomeState) (activeId : String) : HomeState :=
  match storeGet s.storeThreadData activeId with
  | some data =>
      { s with messages := if data.messages.isEmpty then SEED_MESSAGES else data.messages,
               sources := data.sources }
  | none => s

def loadEffect (s : HomeState) : HomeState :=
  match s.storeThreads with
  | none => s
  | some parsed =>
    let s1 := { s with threads := parsed }
    match s.storeActiveThread with
    | some activeId =>
        if parsed.any (fun t => t.id == activeId) then
          loadThreadOnMount { s1 with activeThreadId := some activeId } activeId
        else
          match parsed with
          | t :: _ => loadThreadOnMount { s1 with activeThreadId := some t.id } t.id
          | [] => s1
    | none =>
        match parsed with
        | t :: _ => loadThreadOnMount { s1 with activeThreadId := some t.id } t.id
        | [] => s1

/-- A fresh page load against the storage left by a previous session. -/
def reload (s : HomeState) : HomeState :=
  loadEffect { initialState with
    storeThreads := s.storeThreads,
    storeActiveThread := s.storeActiveThread,
    storeThreadData := s.storeThreadData }

/-- One user-visible event on the page. -/
inductive Op where
  | createThread (now : String)
  | selectThread (id : String)
  | deleteThread (id : String)
  | toggleSource (fileId : String)
  | toggleAllSources (enabled : Bool)
  | deleteSource (fileId : String)
  | uploadComplete (r : UploadResult) (now : String)
  | send (text now : String) (net : NetResult)

/-- Dispatch an event to its handler. -/
def stepRaw (s : HomeState) : Op → HomeState
  | .createThread now => handleCreateThread s now
  | .selectThread id => handleSelectThread s id
  | .deleteThread id => handleDeleteThread s id
  | .toggleSource fileId => handleToggleSource s fileId
  | .toggleAllSources enabled => handleToggleAllSources s enabled
  | .deleteSource fileId => handleDeleteSource s fileId
  | .uploadComplete r now => handleUploadComplete s r now
  | .send text now net => (handleSend s text now net).1

/-- One event followed by the save effects of the resulting commit. -/
def step (s : HomeState) (op : Op) : HomeState := applyEffects (stepRaw s op)

/-- Run a sequence of events. -/
def run (s : HomeState) : List Op → HomeState
  | [] => s
  | op :: ops => run (step s op) ops

/-- The events the UI can actually emit: `ThreadSidebar` only calls
`onSelectThread` with the id of a rendered thread. -/
def validOp (s : HomeState) : Op → Prop
  | .selectThread id => ∃ t ∈ s.threads, t.id = id
  | _ => True

def validSeq (s : HomeState) : List Op → Prop
  | [] => True
  | op :: ops => validOp s op ∧ validSeq (step s op) ops

/-- The active-thread invariant: no dangling active id. -/
def activeOk (s : HomeState) : Prop :=
  s.activeThreadId = none ∨ ∃ t ∈ s.threads, s.activeThreadId = some t.id

/-- The snapshot store after `handleSelectThread`'s save of the current
thread (the first half of that handler). -/
def savedData (s : HomeState) : List (String × ThreadData) :=
  match s.activeThreadId with
  | some a => storeSet s.storeThreadData a ⟨s.messages, s.sources⟩
  | none => s.storeThreadData

/-- The message list `handleSelectThread` installs for the selected thread
(the loaded snapshot, falling back to the seed messages). -/
def loadedMessages (s : HomeState) (i : String) : List ChatMessage :=
  match storeGet (savedData s) i with
  | some data => if data.messages.isEmpty then SEED_MESSAGES else data.messages
  | none => SEED_MESSAGES

/-- Concrete state with retrieval on and no upload, used by witnesses. -/
def ragOnlyState : HomeState := { initialState with useRag := true }

/-- A concrete upload result used by witnesses. -/
def docUpload : UploadResult :=
  { file_id := "doc-1", filename := "manual.pdf", pages := 12,
    chunks_indexed := 40, type := "pdf", recommended_actions := [] }

/-- A concrete state with one uploaded document, used by witnesses. -/
def docState : HomeState :=
  { initialState with
      sources := [{ file_id := "doc-1", filename := "manual.pdf", pages := 12,
                    chunks_indexed := 40, type := "pdf", uploadedAt := "1",
                    enabled := true }],
      uploadResult := some docUpload, useRag := true }

/-- A concrete state with a persisted thread list, used by witnesses. -/
def storedState : HomeState :=
  { initialState with storeThreads := some [⟨"t1", "New Chat", "💬", "1", "1"⟩] }

/-- A concrete two-thread state with an active thread, used by witnesses. -/
def roundTripState : HomeState :=
  { initialState with
      threads := [⟨"A", "a", "💬", "1", "1"⟩, ⟨"B", "b", "💬", "2", "2"⟩],
      activeThreadId := some "A",
      messages := [{ id := "m1", role := .user, text := "hello" }] }

/-! ### Helper lemmas -/

/-- Local rejection of a retrieval query without an uploaded document: the
whole effect of `queryBackend` is the info toast, and no request is issued. -/
theorem queryBackend_reject (rm : List ChatMessage) (s : HomeState)
    (q ty now : String) (fr : Option Bool) (net : NetResult)
    (hrag : fr.getD s.useRag = true) (hup : s.uploadResult = none) :
    queryBackend rm s q ty fr now net =
      (showToast s "Upload a document first to use RAG." .info, []) := by
  unfold queryBackend
  simp [hrag, hup]

lemma storeGet_storeSet_self (l : List (String × ThreadData)) (k : String) (v : ThreadData) :
    storeGet (storeSet l k v) k = some v := by
  unfold storeGet storeSet
  rw [List.find?_cons_of_pos _ (by simp)]
  rfl

lemma find?_filter_ne (l : List (String × ThreadData)) (k k' : String) (h : k' ≠ k) :
    (l.filter fun p => p.1 != k).find? (fun p => p.1 == k') =
      l.find? (fun p => p.1 == k') := by
  induction l with
  | nil => rfl
  | cons p l ih =>
    by_cases hp : p.1 = k
    · have h1 : (p.1 != k) = false := by simp [hp]
      have h2 : (p.1 == k') = false := by simp [hp, Ne.symm h]
      simp [List.filter_cons, h1, List.find?_cons, h2, ih]
    · have h1 : (p.1 != k) = true := by simp [hp]
      by_cases hk : p.1 = k'
      · have h2 : (p.1 == k') = true := by simp [hk]
        simp [List.filter_cons, h1, List.find?_cons, h2]
      · have h2 : (p.1 == k') = false := by simp [hk]
        simp [List.filter_cons, h1, List.find?_cons, h2, ih]

lemma storeGet_storeSet_ne (l : List (String × ThreadData)) (k k' : String) (v : ThreadData)
    (h : k' ≠ k) : storeGet (storeSet l k v) k' = storeGet l k' := by
  unfold storeGet storeSet
  rw [List.find?_cons_of_neg _ (by simp [Ne.symm h]), find?_filter_ne l k k' h]

/-- The combined save effects only touch the three storage fields, with the
stated write conditions. -/
lemma applyEffects_def (s : HomeState) :
    applyEffects s =
      { s with
        storeThreads := if s.threads.isEmpty then s.storeThreads else some s.threads,
        storeActiveThread := match s.activeThreadId with
          | some a => some a
          | none => s.storeActiveThread,
        storeThreadData := match s.activeThreadId with
          | some a => if s.messages.isEmpty then s.storeThreadData
                      else storeSet s.storeThreadData a ⟨s.messages, s.sources⟩
          | none => s.storeThreadData } := by
  obtain ⟨th, act, ms, ty, so, up, ur, ts, bd, st, sa, sd⟩ := s
  unfold applyEffects saveThreadDataEffect saveActiveThreadEffect saveThreadsEffect
  by_cases h1 : th.isEmpty <;> cases act <;> by_cases h3 : ms.isEmpty <;> simp [h1, h3]

/-- Explicit form of `handleSelectThread`. -/
lemma handleSelectThread_def (s : HomeState) (i : String) :
    handleSelectThread s i =
      { s with
          activeThreadId := some i,
          storeThreadData := savedData s,
          messages := match storeGet (savedData s) i with
            | some data => if data.messages.isEmpty then SEED_MESSAGES else data.messages
            | none => SEED_MESSAGES } := by
  unfold handleSelectThread savedData
  cases h : s.activeThreadId <;> dsimp only <;> (split <;> rfl)

/-- Explicit form of `handleSelectThread`, with the loaded list named. -/
lemma handleSelectThread_def2 (s : HomeState) (i : String) :
    handleSelectThread s i =
      { s with activeThreadId := some i, storeThreadData := savedData s,
               messages := loadedMessages s i } := by
  rw [handleSelectThread_def]
  rfl

lemma loadedMessages_isEmpty (s : HomeState) (i : String) :
    (loadedMessages s i).isEmpty = false := by
  unfold loadedMessages
  split
  · split
    · rfl
    · rename_i hdm
      simpa using hdm
  · rfl

lemma activeOk_of_same (s s' : HomeState) (ht : s'.threads = s.threads)
    (ha : s'.activeThreadId = s.activeThreadId) (h : activeOk s) : activeOk s' := by
  unfold activeOk
  rw [ht, ha]
  exact h

lemma activeOk_applyEffects (s : HomeState) : activeOk (applyEffects s) ↔ activeOk s := by
  rw [applyEffects_def]
  exact Iff.rfl

/-- One valid event preserves the no-dangling-active-thread invariant. -/
lemma activeOk_step (s : HomeState) (op : Op) (h : activeOk s) (hv : validOp s op) :
    activeOk (step s op) := by
  rw [step, activeOk_applyEffects]
  cases op with
  | createThread now =>
      exact Or.inr ⟨⟨"thread-" ++ now, "New Chat", "💬", now, now⟩,
        List.mem_cons_self _ _, rfl⟩
  | selectThread id =>
      obtain ⟨t, ht, hid⟩ := hv
      refine Or.inr ⟨t, ?_, ?_⟩
      · rw [stepRaw, handleSelectThread_def]
        exact ht
      · rw [stepRaw, handleSelectThread_def, hid]
  | deleteThread id =>
      rw [stepRaw]
      unfold handleDeleteThread
      by_cases hact : s.activeThreadId = some id
      · rw [if_pos hact]
        cases hrem : s.threads.filter (fun t => t.id != id) with
        | nil => exact Or.inl rfl
        | cons r rest =>
            dsimp only
            refine Or.inr ⟨r, ?_, ?_⟩
            · rw [handleSelectThread_def]
              exact List.mem_cons_self _ _
            · rw [handleSelectThread_def]
      · rw [if_neg hact]
        rcases h with h0 | ⟨t, ht, hid⟩
        · exact Or.inl h0
        · refine Or.inr ⟨t, ?_, hid⟩
          refine List.mem_filter.mpr ⟨ht, ?_⟩
          have hne : t.id ≠ id := by
            intro he
            exact hact (by rw [← he]; exact hid)
          simpa using hne
  | toggleSource f => exact activeOk_of_same s _ rfl rfl h
  | toggleAllSources b => exact activeOk_of_same s _ rfl rfl h
  | deleteSource f =>
      have hth : (stepRaw s (Op.deleteSource f)).threads = s.threads := by
        rw [stepRaw]
        unfold handleDeleteSource
        dsimp only
        split
        · split <;> rfl
        · rfl
      have hac : (stepRaw s (Op.deleteSource f)).activeThreadId = s.activeThreadId := by
        rw [stepRaw]
        unfold handleDeleteSource
        dsimp only
        split
        · split <;> rfl
        · rfl
      exact activeOk_of_same s _ hth hac h
  | uploadComplete r now =>
      by_cases he : s.threads.isEmpty
      · refine Or.inr ⟨⟨"thread-" ++ now,
            String.mk ((dropFileExt r.filename.data).take 30),
            if r.type == "pdf" then "📄" else "🖼️", now, now⟩, ?_, ?_⟩ <;>
          by_cases hany : (s.sources.any fun src => src.file_id == r.file_id) = true <;>
            simp [stepRaw, handleUploadComplete, showToast, he, hany]
      · refine activeOk_of_same s _ ?_ ?_ h <;>
          by_cases hany : (s.sources.any fun src => src.file_id == r.file_id) = true <;>
            simp [stepRaw, handleUploadComplete, showToast, he, hany]
  | send text now net =>
      have hth : (stepRaw s (Op.send text now net)).threads = s.threads := by
        rw [stepRaw]
        unfold handleSend queryBackend showToast addBotMessage
        dsimp only
        split
        · rfl
        · split <;> rfl
      have hac : (stepRaw s (Op.send text now net)).activeThreadId = s.activeThreadId := by
        rw [stepRaw]
        unfold handleSend queryBackend showToast addBotMessage
        dsimp only
        split
        · rfl
        · split <;> rfl
      exact activeOk_of_same s _ hth hac h

lemma activeOk_run (s : HomeState) (ops : List Op) (h0 : activeOk s)
    (hv : validSeq s ops) : activeOk (run s ops) := by
  induction ops generalizing s with
  | nil => exact h0
  | cons op ops ih => exact ih _ (activeOk_step s op h0 hv.1) hv.2

/-- No event handler writes the persisted thread-list entry itself; only the
save effect does. -/
lemma storeThreads_stepRaw (s : HomeState) (op : Op) :
    (stepRaw s op).storeThreads = s.storeThreads := by
  cases op with
  | createThread now => rfl
  | selectThread id => rw [stepRaw, handleSelectThread_def]
  | deleteThread id =>
      rw [stepRaw]
      unfold handleDeleteThread
      by_cases hact : s.activeThreadId = some id
      · rw [if_pos hact]
        cases hrem : s.threads.filter (fun t => t.id != id) with
        | nil => rfl
        | cons r rest =>
            dsimp only
            rw [handleSelectThread_def]
      · rw [if_neg hact]
  | toggleSource f => rfl
  | toggleAllSources b => rfl
  | deleteSource f =>
      rw [stepRaw]
      unfold handleDeleteSource
      dsimp only
      split
      · split <;> rfl
      · rfl
  | uploadComplete r now =>
      rw [stepRaw]
      unfold handleUploadComplete showToast
      dsimp only
      by_cases he : s.threads.isEmpty <;>
        by_cases hany : (s.sources.any fun src => src.file_id == r.file_id) = true <;>
          simp [he, hany]
  | send text now net =>
      rw [stepRaw]
      unfold handleSend queryBackend showToast addBotMessage
      dsimp only
      split
      · rfl
      · split <;> rfl

lemma threads_step (s : HomeState) (op : Op) :
    (step s op).threads = (stepRaw s op).threads := by
  rw [step, applyEffects_def]

/-- Explicit form of one select event including its save effects. -/
lemma step_select_def (s : HomeState) (i : String) :
    step s (.selectThread i) =
      { s with
          activeThreadId := some i,
          messages := loadedMessages s i,
          storeThreads := if s.threads.isEmpty then s.storeThreads else some s.threads,
          storeActiveThread := some i,
          storeThreadData := storeSet (savedData s) i ⟨loadedMessages s i, s.sources⟩ } := by
  rw [step]
  have h1 : stepRaw s (.selectThread i) = handleSelectThread s i := rfl
  rw [h1, handleSelectThread_def2, applyEffects_def]
  simp [loadedMessages_isEmpty]

lemma messages_step_select (s : HomeState) (i : String) :
    (step s (.selectThread i)).messages = loadedMessages s i := by
  rw [step_select_def]

lemma sources_step_select (s : HomeState) (i : String) :
    (step s (.selectThread i)).sources = s.sources := by
  rw [step_select_def]

lemma savedData_step_select (s : HomeState) (i : String) :
    savedData (step s (.selectThread i)) =
      storeSet (storeSet (savedData s) i ⟨loadedMessages s i, s.sources⟩) i
        ⟨loadedMessages s i, s.sources⟩ := by
  unfold savedData
  rw [step_select_def]
  rfl

/-! ### Claims -/

/-- Claim C1: for every query issued while the effective retrieval flag is
true and no document has been uploaded, `queryBackend` rejects the operation
locally: it raises an informational notice, performs no network call, and
returns with no other state change. -/
theorem claim_C1 (s : HomeState) (q ty now : String) (fr : Option Bool)
    (net : NetResult) (hrag : fr.getD s.useRag = true)
    (hup : s.uploadResult = none) :
    queryBackend s.messages s q ty fr now net =
      (showToast s "Upload a document first to use RAG." .info, []) :=
  queryBackend_reject s.messages s q ty now fr net hrag hup

theorem claim_C1_witness :
    (none : Option Bool).getD ragOnlyState.useRag = true ∧
    ragOnlyState.uploadResult = none ∧
    queryBackend ragOnlyState.messages ragOnlyState "q" "freeform" none "7" .fail =
      (showToast ragOnlyState "Upload a document first to use RAG." .info, []) :=
  ⟨rfl, rfl, claim_C1 ragOnlyState "q" "freeform" "7" none .fail rfl rfl⟩

/-- Claim C9: a retrieval query rejected locally still keeps the user's own
message, because `handleSend` appends it before `queryBackend` validates:
the only state changes are the appended user message and the informational
notice, no request is issued, and the typing indicator remains false. -/
theorem claim_C9 (s : HomeState) (text now : String) (net : NetResult)
    (hrag : s.useRag = true) (hup : s.uploadResult = none)
    (ht : s.isTyping = false) :
    handleSend s text now net =
      ({ s with
          messages := s.messages ++ [{ id := "user-" ++ now, role := .user, text := text }],
          toasts := s.toasts ++
            [{ message := "Upload a document first to use RAG.", type := .info }] }, [])
    ∧ (handleSend s text now net).1.isTyping = false := by
  have h1 : handleSend s text now net =
      ({ s with
          messages := s.messages ++ [{ id := "user-" ++ now, role := .user, text := text }],
          toasts := s.toasts ++
            [{ message := "Upload a document first to use RAG.", type := .info }] }, []) := by
    unfold handleSend
    rw [queryBackend_reject]
    · rfl
    · simpa using hrag
    · simpa using hup
  refine ⟨h1, ?_⟩
  rw [h1]
  simpa using ht

theorem claim_C9_witness :
    ragOnlyState.useRag = true ∧ ragOnlyState.uploadResult = none ∧
    ragOnlyState.isTyping = false ∧
    (handleSend ragOnlyState "hello" "9" .fail =
      ({ ragOnlyState with
          messages := ragOnlyState.messages ++
            [{ id := "user-" ++ "9", role := .user, text := "hello" }],
          toasts := ragOnlyState.toasts ++
            [{ message := "Upload a document first to use RAG.", type := .info }] }, [])
      ∧ (handleSend ragOnlyState "hello" "9" .fail).1.isTyping = false) :=
  ⟨rfl, rfl, rfl, claim_C9 ragOnlyState "hello" "9" .fail rfl rfl rfl⟩

/-- Claim C3: on any network failure (non-2xx or transport error, both landing
in the same catch) the typing indicator is cleared, a generic
server-unavailable notice is raised, no bot message is appended and exactly
one request was issued (no retry): the message list ends unchanged except for
the user's own submitted message, and sources/threads/upload target/retrieval
flag are untouched. -/
theorem claim_C3 (s : HomeState) (text now : String)
    (h : s.useRag = true → s.uploadResult ≠ none) :
    (handleSend s text now .fail).1.isTyping = false ∧
    (handleSend s text now .fail).1.messages =
      s.messages ++ [{ id := "user-" ++ now, role := .user, text := text }] ∧
    (handleSend s text now .fail).1.toasts =
      s.toasts ++ [{ message := "Server unavailable — try again", type := .error }] ∧
    (handleSend s text now .fail).2.length = 1 ∧
    (handleSend s text now .fail).1.sources = s.sources ∧
    (handleSend s text now .fail).1.threads = s.threads ∧
    (handleSend s text now .fail).1.uploadResult = s.uploadResult ∧
    (handleSend s text now .fail).1.useRag = s.useRag := by
  have hcond : (s.useRag && s.uploadResult.isNone) = false := by
    cases hr : s.useRag
    · rfl
    · cases hu : s.uploadResult
      · exact absurd hu (h hr)
      · rfl
  unfold handleSend queryBackend
  simp [hcond, showToast]

theorem claim_C3_witness :
    (initialState.useRag = true → initialState.uploadResult ≠ none) ∧
    ((handleSend initialState "hi" "3" .fail).1.isTyping = false ∧
     (handleSend initialState "hi" "3" .fail).1.messages =
       initialState.messages ++ [{ id := "user-" ++ "3", role := .user, text := "hi" }] ∧
     (handleSend initialState "hi" "3" .fail).1.toasts =
       initialState.toasts ++
         [{ message := "Server unavailable — try again", type := .error }] ∧
     (handleSend initialState "hi" "3" .fail).2.length = 1 ∧
     (handleSend initialState "hi" "3" .fail).1.sources = initialState.sources ∧
     (handleSend initialState "hi" "3" .fail).1.threads = initialState.threads ∧
     (handleSend initialState "hi" "3" .fail).1.uploadResult = initialState.uploadResult ∧
     (handleSend initialState "hi" "3" .fail).1.useRag = initialState.useRag) :=
  ⟨fun hr => absurd hr (by decide), claim_C3 initialState "hi" "3" (fun hr => absurd hr (by decide))⟩

/-- Claim C5: toggle-all with requested value `v` sets every source's enabled
flag to `v` (keeping the list length), and the global retrieval flag ends up
true exactly when `v` is true and at least one source exists. -/
theorem claim_C5 (s : HomeState) (v : Bool) :
    ((handleToggleAllSources s v).sources.all fun src => src.enabled == v) = true ∧
    (handleToggleAllSources s v).sources.length = s.sources.length ∧
    ((handleToggleAllSources s v).useRag = true ↔ v = true ∧ s.sources ≠ []) := by
  refine ⟨?_, ?_, ?_⟩
  · simp [handleToggleAllSources, List.all_eq_true]
  · simp [handleToggleAllSources]
  · simp [handleToggleAllSources, List.length_pos]

theorem claim_C5_witness :
    ((handleToggleAllSources docState true).sources.all fun src => src.enabled == true) = true ∧
    (handleToggleAllSources docState true).sources.length = docState.sources.length ∧
    ((handleToggleAllSources docState true).useRag = true ↔ true = true ∧ docState.sources ≠ []) :=
  claim_C5 docState true

/-- Claim C4: deleting a source removes every source with that file id from
the list; when the deleted id matches the current upload/retrieval target the
target is cleared and the retrieval flag disabled, after which any
retrieval-requiring query is rejected locally with zero network calls. -/
theorem claim_C4 (s : HomeState) (fid : String) (u : UploadResult)
    (q ty now : String) (fr : Option Bool) (net : NetResult) :
    ((handleDeleteSource s fid).sources.all fun src => src.file_id != fid) = true ∧
    (s.uploadResult = some u → u.file_id = fid →
      (handleDeleteSource s fid).uploadResult = none ∧
      (handleDeleteSource s fid).useRag = false ∧
      (fr.getD (handleDeleteSource s fid).useRag = true →
        queryBackend (handleDeleteSource s fid).messages (handleDeleteSource s fid)
            q ty fr now net =
          (showToast (handleDeleteSource s fid) "Upload a document first to use RAG." .info, []))) := by
  constructor
  · unfold handleDeleteSource
    cases s.uploadResult with
    | none => simp [List.all_eq_true, List.mem_filter]
    | some u' =>
        by_cases hf : u'.file_id == fid <;>
          simp [hf, List.all_eq_true, List.mem_filter]
  · intro hu hf
    have hdel : handleDeleteSource s fid =
        { s with sources := s.sources.filter (fun src => src.file_id != fid),
                 uploadResult := none, useRag := false } := by
      unfold handleDeleteSource
      rw [hu]
      simp [hf]
    refine ⟨by rw [hdel], by rw [hdel], fun hfr => ?_⟩
    exact queryBackend_reject _ _ q ty now fr net hfr (by rw [hdel])

theorem claim_C4_witness :
    docState.uploadResult = some docUpload ∧ docUpload.file_id = "doc-1" ∧
    ((handleDeleteSource docState "doc-1").sources.all fun src => src.file_id != "doc-1") = true ∧
    (handleDeleteSource docState "doc-1").uploadResult = none ∧
    (handleDeleteSource docState "doc-1").useRag = false ∧
    queryBackend (handleDeleteSource docState "doc-1").messages
        (handleDeleteSource docState "doc-1") "q" "freeform" (some true) "7" NetResult.fail =
      (showToast (handleDeleteSource docState "doc-1")
        "Upload a document first to use RAG." .info, []) := by
  have h := claim_C4 docState "doc-1" docUpload "q" "freeform" "7" (some true) NetResult.fail
  have h2 := h.2 rfl rfl
  exact ⟨rfl, rfl, h.1, h2.1, h2.2.1, h2.2.2 rfl⟩

/-- Claim C6: a successful upload completing while the threads list is empty
creates exactly one new thread and makes it active, titled from the filename
with the extension stripped and truncated to at most 30 characters; a new
enabled Source carrying the upload's fields is appended (unless one with that
file id already exists); and the retrieval flag becomes true. -/
theorem claim_C6 (s : HomeState) (r : UploadResult) (now : String)
    (h : s.threads = []) :
    ∃ t : Thread,
      (handleUploadComplete s r now).threads = [t] ∧
      (handleUploadComplete s r now).activeThreadId = some t.id ∧
      t.title = String.mk ((dropFileExt r.filename.data).take 30) ∧
      t.title.length ≤ 30 ∧
      (handleUploadComplete s r now).useRag = true ∧
      (handleUploadComplete s r now).uploadResult = some r ∧
      ((s.sources.any fun src => src.file_id == r.file_id) = true →
        (handleUploadComplete s r now).sources = s.sources) ∧
      ((s.sources.any fun src => src.file_id == r.file_id) = false →
        (handleUploadComplete s r now).sources = s.sources ++
          [{ file_id := r.file_id, filename := r.filename, pages := r.pages,
             chunks_indexed := r.chunks_indexed, type := r.type,
             uploadedAt := now, enabled := true }]) := by
  have hthreads : s.threads.isEmpty = true := by simp [h]
  refine ⟨⟨"thread-" ++ now, String.mk ((dropFileExt r.filename.data).take 30),
          if r.type == "pdf" then "📄" else "🖼️", now, now⟩,
         ?_, ?_, rfl, ?_, ?_, ?_, ?_, ?_⟩
  · by_cases hany : (s.sources.any fun src => src.file_id == r.file_id) = true <;>
      simp [handleUploadComplete, showToast, hthreads, hany]
  · by_cases hany : (s.sources.any fun src => src.file_id == r.file_id) = true <;>
      simp [handleUploadComplete, showToast, hthreads, hany]
  · exact List.length_take_le 30 _
  · by_cases hany : (s.sources.any fun src => src.file_id == r.file_id) = true <;>
      simp [handleUploadComplete, showToast, hthreads, hany]
  · by_cases hany : (s.sources.any fun src => src.file_id == r.file_id) = true <;>
      simp [handleUploadComplete, showToast, hthreads, hany]
  · intro hany
    simp [handleUploadComplete, showToast, hthreads, hany]
  · intro hany
    simp [handleUploadComplete, showToast, hthreads, hany]

theorem claim_C6_witness :
    initialState.threads = [] ∧
    ∃ t : Thread,
      (handleUploadComplete initialState docUpload "500").threads = [t] ∧
      (handleUploadComplete initialState docUpload "500").activeThreadId = some t.id ∧
      t.title = String.mk ((dropFileExt docUpload.filename.data).take 30) ∧
      t.title.length ≤ 30 ∧
      (handleUploadComplete initialState docUpload "500").useRag = true ∧
      (handleUploadComplete initialState docUpload "500").uploadResult = some docUpload ∧
      ((initialState.sources.any fun src => src.file_id == docUpload.file_id) = true →
        (handleUploadComplete initialState docUpload "500").sources = initialState.sources) ∧
      ((initialState.sources.any fun src => src.file_id == docUpload.file_id) = false →
        (handleUploadComplete initialState docUpload "500").sources = initialState.sources ++
          [{ file_id := docUpload.file_id, filename := docUpload.filename,
             pages := docUpload.pages, chunks_indexed := docUpload.chunks_indexed,
             type := docUpload.type, uploadedAt := "500", enabled := true }]) :=
  ⟨rfl, claim_C6 initialState docUpload "500" rfl⟩

/-- Claim C7: every query that reaches the network sends exactly one request,
whose body carries the (nullable) target file id and filename, the query
text, the action type, the effective retrieval flag, and a history of at most
the 10 most recent user/bot turns of the message list `queryBackend` reads,
each reduced to role and text, with system messages excluded. -/
theorem claim_C7 (s : HomeState) (q ty now : String) (fr : Option Bool)
    (net : NetResult) (u : UploadResult)
    (h : ¬(fr.getD s.useRag = true ∧ s.uploadResult = none)) :
    ∃ r : QueryRequest,
      (queryBackend s.messages s q ty fr now net).2 = [r] ∧
      r.query = q ∧ r.qtype = ty ∧ r.use_rag = fr.getD s.useRag ∧
      (s.uploadResult = none → r.file_id = none ∧ r.filename = none) ∧
      (s.uploadResult = some u → u.file_id ≠ "" → r.file_id = some u.file_id) ∧
      (s.uploadResult = some u → u.filename ≠ "" → r.filename = some u.filename) ∧
      r.history.length ≤ 10 ∧
      (r.history.all fun e => e.role == Role.user || e.role == Role.bot) = true ∧
      ∃ dropped kept,
        s.messages.filter (fun m => m.role == Role.user || m.role == Role.bot) =
          dropped ++ kept ∧
        kept.length =
          min 10 (s.messages.filter (fun m => m.role == Role.user || m.role == Role.bot)).length ∧
        r.history = kept.map fun m => { role := m.role, text := m.text } := by
  have hcond : (fr.getD s.useRag && s.uploadResult.isNone) = false := by
    cases h1 : fr.getD s.useRag
    · rfl
    · cases h2 : s.uploadResult
      · exact absurd ⟨h1, h2⟩ h
      · rfl
  refine ⟨{ file_id := jsStringOrNull s.uploadResult (·.file_id),
            filename := jsStringOrNull s.uploadResult (·.filename),
            query := q, qtype := ty, use_rag := fr.getD s.useRag,
            history := (takeLast 10 (s.messages.filter
              (fun m => m.role == Role.user || m.role == Role.bot))).map
                fun m => { role := m.role, text := m.text } },
         ?_, rfl, rfl, rfl, ?_, ?_, ?_, ?_, ?_, ?_⟩
  · cases net <;> simp [queryBackend, hcond, addBotMessage, showToast]
  · intro h0
    simp [jsStringOrNull, h0]
  · intro hu hne
    simp [jsStringOrNull, hu, hne]
  · intro hu hne
    simp [jsStringOrNull, hu, hne]
  · simp only [List.length_map, takeLast, List.length_drop]
    omega
  · simp only [List.all_eq_true]
    intro e he
    simp only [List.mem_map] at he
    obtain ⟨m, hm, rfl⟩ := he
    have hmF : m ∈ s.messages.filter (fun m => m.role == Role.user || m.role == Role.bot) :=
      List.drop_subset _ _ hm
    exact (List.mem_filter.mp hmF).2
  · refine ⟨(s.messages.filter (fun m => m.role == Role.user || m.role == Role.bot)).take
        ((s.messages.filter (fun m => m.role == Role.user || m.role == Role.bot)).length - 10),
      takeLast 10 (s.messages.filter (fun m => m.role == Role.user || m.role == Role.bot)),
      (List.take_append_drop _ _).symm, ?_, rfl⟩
    simp only [takeLast, List.length_drop]
    omega

theorem claim_C7_witness :
    ¬((none : Option Bool).getD docState.useRag = true ∧ docState.uploadResult = none) ∧
    ∃ r : QueryRequest,
      (queryBackend docState.messages docState "hi" "freeform" none "3" NetResult.fail).2 = [r] ∧
      r.query = "hi" ∧ r.qtype = "freeform" ∧
      r.use_rag = (none : Option Bool).getD docState.useRag ∧
      (docState.uploadResult = none → r.file_id = none ∧ r.filename = none) ∧
      (docState.uploadResult = some docUpload → docUpload.file_id ≠ "" →
        r.file_id = some docUpload.file_id) ∧
      (docState.uploadResult = some docUpload → docUpload.filename ≠ "" →
        r.filename = some docUpload.filename) ∧
      r.history.length ≤ 10 ∧
      (r.history.all fun e => e.role == Role.user || e.role == Role.bot) = true ∧
      ∃ dropped kept,
        docState.messages.filter (fun m => m.role == Role.user || m.role == Role.bot) =
          dropped ++ kept ∧
        kept.length =
          min 10 (docState.messages.filter
            (fun m => m.role == Role.user || m.role == Role.bot)).length ∧
        r.history = kept.map fun m => { role := m.role, text := m.text } :=
  ⟨by decide, claim_C7 docState "hi" "freeform" "3" none NetResult.fail docUpload (by decide)⟩

/-- Claim C2: over every valid event sequence from the initial state, the
active thread id is never a dangling reference (it is null or the id of a
thread still in the list — in particular after any delete); moreover a delete
of the active thread selects the first remaining thread, or clears the active
state entirely when none remains. -/
theorem claim_C2 (ops : List Op) (h : validSeq initialState ops) :
    activeOk (run initialState ops) ∧
    ∀ (s : HomeState) (id : String), s.activeThreadId = some id →
      (step s (.deleteThread id)).activeThreadId =
        ((s.threads.filter fun t => t.id != id).head?.map Thread.id) := by
  refine ⟨activeOk_run _ _ (Or.inl rfl) h, ?_⟩
  intro s id hact
  have hs : (step s (.deleteThread id)).activeThreadId =
      (stepRaw s (.deleteThread id)).activeThreadId := by
    rw [step, applyEffects_def]
  rw [hs, stepRaw]
  unfold handleDeleteThread
  rw [if_pos hact]
  cases hrem : s.threads.filter (fun t => t.id != id) with
  | nil => rfl
  | cons r rest =>
      dsimp only
      rw [handleSelectThread_def]
      rfl

theorem claim_C2_witness :
    validSeq initialState [Op.createThread "1", Op.deleteThread "thread-1"] ∧
    activeOk (run initialState [Op.createThread "1", Op.deleteThread "thread-1"]) :=
  ⟨⟨trivial, trivial, trivial⟩,
   (claim_C2 [Op.createThread "1", Op.deleteThread "thread-1"]
     ⟨trivial, trivial, trivial⟩).1⟩

/-- Claim C10: once the persisted thread-list entry holds a non-empty list it
is never removed and never overwritten with an empty list by any event; any
event leaving a non-empty in-memory list persists exactly that list; and
deleting the last remaining thread leaves the stale list in storage, so the
deleted thread reappears on the next page load. -/
theorem claim_C10 :
    (∀ (s : HomeState) (op : Op) (l : List Thread),
      s.storeThreads = some l → l ≠ [] →
      ∃ m, (step s op).storeThreads = some m ∧ m ≠ []) ∧
    (∀ (s : HomeState) (op : Op), (step s op).threads ≠ [] →
      (step s op).storeThreads = some (step s op).threads) ∧
    ((run initialState [Op.createThread "9", Op.deleteThread "thread-9"]).threads = [] ∧
     (run initialState [Op.createThread "9", Op.deleteThread "thread-9"]).storeThreads =
       some [⟨"thread-9", "New Chat", "💬", "9", "9"⟩] ∧
     (reload (run initialState [Op.createThread "9", Op.deleteThread "thread-9"])).threads =
       [⟨"thread-9", "New Chat", "💬", "9", "9"⟩]) := by
  refine ⟨?_, ?_, by decide, by decide, by decide⟩
  · intro s op l hl hne
    have hst : (step s op).storeThreads =
        if (stepRaw s op).threads.isEmpty then (stepRaw s op).storeThreads
        else some (stepRaw s op).threads := by
      rw [step, applyEffects_def]
    by_cases he : (stepRaw s op).threads.isEmpty
    · rw [hst, if_pos he, storeThreads_stepRaw]
      exact ⟨l, hl, hne⟩
    · rw [hst, if_neg he]
      refine ⟨(stepRaw s op).threads, rfl, ?_⟩
      simpa [List.isEmpty_iff] using he
  · intro s op hth
    have hth' : (stepRaw s op).threads ≠ [] := by
      rwa [threads_step] at hth
    have he : (stepRaw s op).threads.isEmpty = false := by
      simpa [List.isEmpty_iff] using hth'
    have hst : (step s op).storeThreads =
        if (stepRaw s op).threads.isEmpty then (stepRaw s op).storeThreads
        else some (stepRaw s op).threads := by
      rw [step, applyEffects_def]
    rw [hst, he, threads_step]
    rfl

theorem claim_C10_witness :
    storedState.storeThreads = some [⟨"t1", "New Chat", "💬", "1", "1"⟩] ∧
    ([(⟨"t1", "New Chat", "💬", "1", "1"⟩ : Thread)] ≠ []) ∧
    ∃ m, (step storedState (Op.deleteThread "t1")).storeThreads = some m ∧ m ≠ [] :=
  ⟨rfl, by decide,
   claim_C10.1 storedState (Op.deleteThread "t1") _ rfl (by decide)⟩

/-- Claim C8: round-trip — with an active thread whose message list is
non-empty, selecting away to another thread and back reproduces the same
message list (content and order) and the same per-source enabled flags as at
the time the snapshot was persisted. -/
theorem claim_C8 (s : HomeState) (a b : String)
    (ha : s.activeThreadId = some a) (hm : s.messages ≠ []) :
    (step (step s (.selectThread b)) (.selectThread a)).messages = s.messages ∧
    (step (step s (.selectThread b)) (.selectThread a)).sources.map
        (fun src => (src.file_id, src.enabled)) =
      s.sources.map fun src => (src.file_id, src.enabled) := by
  have hMempty : s.messages.isEmpty = false := by
    simpa [List.isEmpty_iff] using hm
  have hMS : storeGet (savedData s) a = some ⟨s.messages, s.sources⟩ := by
    unfold savedData
    rw [ha]
    exact storeGet_storeSet_self _ _ _
  have hloadA : loadedMessages s a = s.messages := by
    unfold loadedMessages
    rw [hMS]
    simp [hMempty]
  have hgetA : storeGet (savedData (step s (.selectThread b))) a =
      some ⟨s.messages, s.sources⟩ := by
    rw [savedData_step_select]
    by_cases hab : a = b
    · subst hab
      rw [storeGet_storeSet_self, hloadA]
    · rw [storeGet_storeSet_ne _ _ _ _ hab, storeGet_storeSet_ne _ _ _ _ hab, hMS]
  constructor
  · rw [messages_step_select]
    unfold loadedMessages
    rw [hgetA]
    simp [hMempty]
  · rw [sources_step_select, sources_step_select]

theorem claim_C8_witness :
    roundTripState.activeThreadId = some "A" ∧ roundTripState.messages ≠ [] ∧
    ((step (step roundTripState (.selectThread "B")) (.selectThread "A")).messages =
        roundTripState.messages ∧
     (step (step roundTripState (.selectThread "B")) (.selectThread "A")).sources.map
        (fun src => (src.file_id, src.enabled)) =
      roundTripState.sources.map fun src => (src.file_id, src.enabled)) :=
  ⟨rfl, by decide, claim_C8 roundTripState "A" "B" rfl (by decide)⟩

end RagChat
